import Mathlib

/-!
Shallow embedding of the TicketTool repository (src/main.py): the ticket
store (class TicketDatabase), the configuration cache (TicketBot.get_config
plus the setup modals), the lifecycle commands (claim, unclaim,
request-close, ticket creation) and the two periodic sweeps
(check_inactive_tickets, check_stale_tickets).

The tickets table is a list of rows; SQL UPDATE statements become maps over
the rows, SELECT ... WHERE becomes a filter, fetchone becomes List.find?.
ISO-8601 timestamp strings (compared lexicographically by SQLite, which for
this format coincides with chronological order) are modelled as naturals.
-/

namespace TicketTool

/-- One row of the `tickets` table (src/main.py, init_db). -/
structure Ticket where
  ticket_id : Nat
  guild_id : Nat
  channel_id : Nat
  creator_id : Nat
  claimed_by : Option Nat
  created_at : Nat
  closed_at : Option Nat
  status : String
  reason : String
  transcript : Option String
  last_user_response : Nat
  close_requested : Bool
  inactivity_warning_sent : Bool
deriving DecidableEq

/-- Row effect of `TicketDatabase.claim_ticket`: SET claimed_by = ?
WHERE channel_id = ? AND status = 'open'. -/
def claimRow (chan who : Nat) (t : Ticket) : Ticket :=
  if t.channel_id = chan ∧ t.status = "open" then { t with claimed_by := some who } else t

/-- Row effect of `TicketDatabase.unclaim_ticket`: SET claimed_by = NULL
WHERE channel_id = ? AND status = 'open'. -/
def unclaimRow (chan : Nat) (t : Ticket) : Ticket :=
  if t.channel_id = chan ∧ t.status = "open" then { t with claimed_by := none } else t

/-- Row effect of `TicketDatabase.update_last_response`: SET
last_user_response = now, inactivity_warning_sent = 0
WHERE channel_id = ? AND status = 'open'. -/
def lastResponseRow (now chan : Nat) (t : Ticket) : Ticket :=
  if t.channel_id = chan ∧ t.status = "open" then
    { t with last_user_response := now, inactivity_warning_sent := false } else t

/-- Row effect of `TicketDatabase.mark_inactivity_warning_sent`: SET
inactivity_warning_sent = 1 WHERE channel_id = ? AND status = 'open'. -/
def warnSentRow (chan : Nat) (t : Ticket) : Ticket :=
  if t.channel_id = chan ∧ t.status = "open" then
    { t with inactivity_warning_sent := true } else t

/-- Row effect of `TicketDatabase.request_close`: SET close_requested = 1
WHERE channel_id = ? AND status = 'open'. -/
def requestCloseRow (chan : Nat) (t : Ticket) : Ticket :=
  if t.channel_id = chan ∧ t.status = "open" then
    { t with close_requested := true } else t

/-- Row effect of `TicketDatabase.close_ticket`: SET status = 'closed',
closed_at = now WHERE channel_id = ?.  Note: unlike every other mutation in
the source, this UPDATE carries no `AND status = 'open'` condition. -/
def closeRow (now chan : Nat) (t : Ticket) : Ticket :=
  if t.channel_id = chan then
    { t with status := "closed", closed_at := some now } else t

/-- `TicketDatabase.claim_ticket` over the whole table. -/
def claim_ticket (chan who : Nat) (db : List Ticket) : List Ticket :=
  db.map (claimRow chan who)

/-- `TicketDatabase.unclaim_ticket` over the whole table. -/
def unclaim_ticket (chan : Nat) (db : List Ticket) : List Ticket :=
  db.map (unclaimRow chan)

/-- `TicketDatabase.update_last_response` over the whole table. -/
def update_last_response (now chan : Nat) (db : List Ticket) : List Ticket :=
  db.map (lastResponseRow now chan)

/-- `TicketDatabase.mark_inactivity_warning_sent` over the whole table. -/
def mark_inactivity_warning_sent (chan : Nat) (db : List Ticket) : List Ticket :=
  db.map (warnSentRow chan)

/-- `TicketDatabase.request_close` over the whole table. -/
def request_close (chan : Nat) (db : List Ticket) : List Ticket :=
  db.map (requestCloseRow chan)

/-- `TicketDatabase.close_ticket` over the whole table (no status gate,
exactly as in the source). -/
def close_ticket (now chan : Nat) (db : List Ticket) : List Ticket :=
  db.map (closeRow now chan)

/-- `TicketDatabase.get_last_ticket_id`: SELECT MAX(ticket_id), or 0. -/
def get_last_ticket_id (db : List Ticket) : Nat :=
  db.foldr (fun t acc => max t.ticket_id acc) 0

/-- `TicketDatabase.create_ticket`: INSERT a fresh row with status 'open',
claimed_by NULL, last_user_response = now, close_requested = 0,
inactivity_warning_sent = 0; AUTOINCREMENT assigns MAX(ticket_id)+1. -/
def create_ticket (gid chan uid : Nat) (reason : String) (now : Nat)
    (db : List Ticket) : List Ticket :=
  db ++ [{ ticket_id := get_last_ticket_id db + 1
           guild_id := gid
           channel_id := chan
           creator_id := uid
           claimed_by := none
           created_at := now
           closed_at := none
           status := "open"
           reason := reason
           transcript := none
           last_user_response := now
           close_requested := false
           inactivity_warning_sent := false }]

/-- `TicketDatabase.get_ticket_by_channel`: SELECT * WHERE channel_id = ?
and fetchone (first matching row); no status condition. -/
def get_ticket_by_channel (chan : Nat) (db : List Ticket) : Option Ticket :=
  db.find? (fun t => t.channel_id == chan)

/-- WHERE clause of `TicketDatabase.get_user_tickets`. -/
def userPred (gid uid : Nat) (t : Ticket) : Bool :=
  t.guild_id == gid && t.creator_id == uid && t.status == "open"

/-- `TicketDatabase.get_user_tickets`: open tickets of a creator in a guild. -/
def get_user_tickets (gid uid : Nat) (db : List Ticket) : List Ticket :=
  db.filter (userPred gid uid)

/-- Number of open tickets a user has in a guild. -/
def openCount (gid uid : Nat) (db : List Ticket) : Nat :=
  (get_user_tickets gid uid db).length

/-- WHERE clause of `TicketDatabase.get_inactive_tickets`: guild match,
status 'open', last_user_response before the cutoff, warning not yet sent.
The source computes cutoff as now minus the configured minutes; the cutoff
value is a parameter here. -/
def inactivePred (gid cutoff : Nat) (t : Ticket) : Bool :=
  t.guild_id == gid && t.status == "open" &&
    decide (t.last_user_response < cutoff) && !t.inactivity_warning_sent

/-- `TicketDatabase.get_inactive_tickets`. -/
def get_inactive_tickets (gid cutoff : Nat) (db : List Ticket) : List Ticket :=
  db.filter (inactivePred gid cutoff)

/-- WHERE clause of `TicketDatabase.get_stale_tickets`: guild match, status
'open', last_user_response before the cutoff (no warning-flag condition). -/
def stalePred (gid cutoff : Nat) (t : Ticket) : Bool :=
  t.guild_id == gid && t.status == "open" && decide (t.last_user_response < cutoff)

/-- `TicketDatabase.get_stale_tickets`. -/
def get_stale_tickets (gid cutoff : Nat) (db : List Ticket) : List Ticket :=
  db.filter (stalePred gid cutoff)

/-- A JSON value stored in a guild's configuration blob. -/
inductive ConfigVal where
  | num (n : Int)
  | str (s : String)
  | boolean (b : Bool)
  | null
deriving DecidableEq

/-- A guild configuration: the JSON object stored in `server_config.config`,
an insertion-ordered key/value mapping. -/
abbrev Config : Type := List (String × ConfigVal)

/-- Dictionary read: `config.get(key)`. -/
def getKey (cfg : Config) (key : String) : Option ConfigVal :=
  (cfg.find? (fun p => p.1 == key)).map (fun p => p.2)

/-- Dictionary write: `config[key] = value` (replace an existing binding in
place, else append, as a Python dict does). -/
def setKey (cfg : Config) (key : String) (v : ConfigVal) : Config :=
  if cfg.any (fun p => p.1 == key) then
    cfg.map (fun p => if p.1 == key then (key, v) else p)
  else cfg ++ [(key, v)]

/-- DEFAULT_CONFIG from src/main.py. -/
def DEFAULT_CONFIG : Config :=
  [("ticket_category", ConfigVal.num 0),
   ("archive_category", ConfigVal.num 0),
   ("log_channel", ConfigVal.num 0),
   ("transcript_channel", ConfigVal.num 0),
   ("support_role", ConfigVal.num 0),
   ("trainee_role", ConfigVal.num 0),
   ("admin_role", ConfigVal.num 0),
   ("panel_channel", ConfigVal.num 0),
   ("panel_message", ConfigVal.num 0),
   ("panel_title", ConfigVal.str ("Support Tickets")),
   ("panel_description", ConfigVal.str ("Click the button below to create a ticket")),
   ("panel_color", ConfigVal.num 10181046),
   ("panel_image", ConfigVal.null),
   ("panel_thumbnail", ConfigVal.null),
   ("ticket_prefix", ConfigVal.str ("ticket-")),
   ("max_tickets", ConfigVal.num 3),
   ("auto_close_minutes", ConfigVal.num 30),
   ("auto_close_days", ConfigVal.num 1),
   ("require_reason", ConfigVal.boolean false),
   ("work_start_hour", ConfigVal.num 10),
   ("work_end_hour", ConfigVal.num 22)]

/-- The `server_config` table: guild_id to configuration blob. -/
abbrev ServerConfigTable : Type := List (Nat × Config)

/-- `TicketDatabase.get_config`: SELECT config WHERE guild_id = ?,
None when no row exists. -/
def dbGetConfig (gid : Nat) (tbl : ServerConfigTable) : Option Config :=
  (tbl.find? (fun p => p.1 == gid)).map (fun p => p.2)

/-- INSERT OR REPLACE INTO server_config. -/
def putRow (gid : Nat) (cfg : Config) (tbl : ServerConfigTable) : ServerConfigTable :=
  if tbl.any (fun p => p.1 == gid) then
    tbl.map (fun p => if p.1 == gid then (gid, cfg) else p)
  else tbl ++ [(gid, cfg)]

/-- `TicketDatabase.update_config`: read the stored blob (or start from an
empty dict), set the key, write the blob back.  The in-process cache is not
touched, exactly as in the source. -/
def dbUpdateConfig (gid : Nat) (key : String) (v : ConfigVal)
    (tbl : ServerConfigTable) : ServerConfigTable :=
  putRow gid (setKey ((dbGetConfig gid tbl).getD []) key v) tbl

/-- Process state relevant to configuration: the durable `server_config`
table and the process-local cache `TicketBot.guild_configs`. -/
structure BotState where
  store : ServerConfigTable
  cache : ServerConfigTable
deriving DecidableEq

/-- The caching step of `TicketBot.get_config`: on a cache miss load the
stored blob, or a copy of DEFAULT_CONFIG when the guild has no row. -/
def botLoadConfig (gid : Nat) (s : BotState) : BotState :=
  if s.cache.any (fun p => p.1 == gid) then s
  else { s with cache := s.cache ++ [(gid, (dbGetConfig gid s.store).getD DEFAULT_CONFIG)] }

/-- `TicketBot.get_config(guild_id, key)`: ensure the guild is cached, then
`cached.get(key, DEFAULT_CONFIG.get(key))`. -/
def botGetConfigKey (gid : Nat) (key : String) (s : BotState) :
    BotState × Option ConfigVal :=
  let s2 := botLoadConfig gid s
  let cfg := (dbGetConfig gid s2.cache).getD DEFAULT_CONFIG
  (s2, ((getKey cfg key).orElse (fun _ => getKey DEFAULT_CONFIG key)))

/-- Outcome of a setup-modal submission. -/
inductive SubmitResult where
  | invalidNumber
  | invalidValue
  | valueSet
deriving DecidableEq

/-- `NumberModal.on_submit`: parse the input (`none` models a ValueError
from int()), check the bounds, then `db.update_config`.  The bot cache is
not refreshed, exactly as in the source. -/
def numberModalSubmit (gid : Nat) (key : String) (minv maxv : Int)
    (input : Option Int) (s : BotState) : SubmitResult × BotState :=
  match input with
  | none => (SubmitResult.invalidNumber, s)
  | some value =>
    if value < minv ∨ value > maxv then (SubmitResult.invalidValue, s)
    else (SubmitResult.valueSet,
          { s with store := dbUpdateConfig gid key (ConfigVal.num value) s.store })

/-- A command actor: their user id, role ids, and whether
`guild_permissions.administrator` holds. -/
structure Actor where
  id : Nat
  roles : List Nat
  admin : Bool
deriving DecidableEq

/-- The staff gate duplicated across the command handlers: the configured
support or trainee role is set (nonzero), resolves in the guild, and is
held by the actor. -/
def hasStaffPermission (supportRole traineeRole : Nat) (roleExists : Nat → Bool)
    (a : Actor) : Bool :=
  (supportRole != 0 && roleExists supportRole && a.roles.contains supportRole) ||
  (traineeRole != 0 && roleExists traineeRole && a.roles.contains traineeRole)

/-- Outcome reported by a command handler. -/
inductive CommandResult where
  | permissionDenied
  | notFound
  | notClaimed
  | alreadyClaimed
  | notOwner
  | notCreator
  | alreadyRequested
  | success
deriving DecidableEq

/-- The `/claim` command handler: staff gate, ticket lookup by channel (no
status filter), already-claimed check (skipped when the recorded claimant
does not resolve as a member), then the store mutation. -/
def claimCommand (supportRole traineeRole : Nat) (roleExists memberFound : Nat → Bool)
    (a : Actor) (chan : Nat) (db : List Ticket) : CommandResult × List Ticket :=
  if !(hasStaffPermission supportRole traineeRole roleExists a) then
    (CommandResult.permissionDenied, db)
  else
    match get_ticket_by_channel chan db with
    | none => (CommandResult.notFound, db)
    | some t =>
      match t.claimed_by with
      | some c =>
        if memberFound c then (CommandResult.alreadyClaimed, db)
        else (CommandResult.success, claim_ticket chan a.id db)
      | none => (CommandResult.success, claim_ticket chan a.id db)

/-- The `/unclaim` command handler: staff gate first (an administrator
without a staff role is rejected here), ticket lookup, not-claimed check,
then claimant-or-admin check, then the store mutation. -/
def unclaimCommand (supportRole traineeRole : Nat) (roleExists memberFound : Nat → Bool)
    (a : Actor) (chan : Nat) (db : List Ticket) : CommandResult × List Ticket :=
  if !(hasStaffPermission supportRole traineeRole roleExists a) then
    (CommandResult.permissionDenied, db)
  else
    match get_ticket_by_channel chan db with
    | none => (CommandResult.notFound, db)
    | some t =>
      match t.claimed_by with
      | none => (CommandResult.notClaimed, db)
      | some c =>
        if c ≠ a.id ∧ a.admin = false ∧ memberFound c = true then
          (CommandResult.notOwner, db)
        else (CommandResult.success, unclaim_ticket chan db)

/-- The `/request-close` command handler: ticket lookup by channel (no
status filter), creator check, duplicate-request check, then the store
mutation. -/
def requestCloseCommand (a : Actor) (chan : Nat) (db : List Ticket) :
    CommandResult × List Ticket :=
  match get_ticket_by_channel chan db with
  | none => (CommandResult.notFound, db)
  | some t =>
    if t.creator_id ≠ a.id then (CommandResult.notCreator, db)
    else if t.close_requested then (CommandResult.alreadyRequested, db)
    else (CommandResult.success, request_close chan db)

/-- Outcome of `create_ticket_channel`. -/
inductive CreateResult where
  | limitExceeded
  | notConfigured
  | categoryNotFound
  | created (tid : Nat)
deriving DecidableEq

/-- `create_ticket_channel`: the creation path of the lifecycle engine.
Checks the creator's open-ticket count against the configured maximum, then
that a ticket category is configured (nonzero) and resolves, then inserts
the record. -/
def createTicketChannel (gid uid maxTickets ticketCategory : Nat)
    (categoryResolves : Bool) (chan : Nat) (reason : String) (now : Nat)
    (db : List Ticket) : CreateResult × List Ticket :=
  if maxTickets ≤ (get_user_tickets gid uid db).length then
    (CreateResult.limitExceeded, db)
  else if ticketCategory = 0 then (CreateResult.notConfigured, db)
  else if !categoryResolves then (CreateResult.categoryNotFound, db)
  else (CreateResult.created (get_last_ticket_id db + 1),
        create_ticket gid chan uid reason now db)

/-- The `on_message` event handler: ignore bot authors, look the channel up
in the tickets table, and advance last_user_response only when an open
ticket is found. -/
def onMessage (now chan : Nat) (authorIsBot : Bool) (db : List Ticket) : List Ticket :=
  if authorIsBot then db
  else
    match get_ticket_by_channel chan db with
    | some t => if t.status = "open" then update_last_response now chan db else db
    | none => db

/-- The per-ticket loop of `check_inactive_tickets`: for each selected
ticket whose guild and channel still resolve, send the warning and mark the
flag.  `resolve` models `bot.get_guild` plus `guild.get_channel` for the
ticket's channel id. -/
def warnLoop (resolve : Nat → Bool) (sel : List Ticket) (db : List Ticket) : List Ticket :=
  match sel with
  | [] => db
  | t :: rest =>
    warnLoop resolve rest
      (if resolve t.channel_id then mark_inactivity_warning_sent t.channel_id db else db)

/-- Channels that actually receive an inactivity warning: the selected
tickets whose channel resolves. -/
def warnedChannels (resolve : Nat → Bool) (sel : List Ticket) : List Nat :=
  (sel.filter (fun t => resolve t.channel_id)).map (fun t => t.channel_id)

/-- One guild's pass of the `check_inactive_tickets` sweep: select by the
inactivity query, then warn and mark each selected ticket whose channel
resolves.  Returns the new table and the warned channel ids. -/
def checkInactiveTickets (gid cutoff : Nat) (resolve : Nat → Bool)
    (db : List Ticket) : List Ticket × List Nat :=
  (warnLoop resolve (get_inactive_tickets gid cutoff db) db,
   warnedChannels resolve (get_inactive_tickets gid cutoff db))

/-- The per-ticket loop of `check_stale_tickets`: for each selected ticket
whose channel resolves, close it in the store (each close in the source
stamps its own dt.now(); a single sweep timestamp stands for them). -/
def closeLoop (now : Nat) (resolve : Nat → Bool) (sel : List Ticket)
    (db : List Ticket) : List Ticket :=
  match sel with
  | [] => db
  | t :: rest =>
    closeLoop now resolve rest
      (if resolve t.channel_id then close_ticket now t.channel_id db else db)

/-- Channels the staleness sweep actually closes. -/
def closedChannels (resolve : Nat → Bool) (sel : List Ticket) : List Nat :=
  (sel.filter (fun t => resolve t.channel_id)).map (fun t => t.channel_id)

/-- One guild's pass of the `check_stale_tickets` sweep. -/
def checkStaleTickets (gid cutoff now : Nat) (resolve : Nat → Bool)
    (db : List Ticket) : List Ticket × List Nat :=
  (closeLoop now resolve (get_stale_tickets gid cutoff db) db,
   closedChannels resolve (get_stale_tickets gid cutoff db))

/-- An engine-level operation on the tickets table, for stating trace
invariants: ticket creation plus every store mutation reachable from the
command handlers and the sweeps. -/
inductive EngineOp where
  | create (gid uid chan : Nat) (ticketCategory : Nat) (categoryResolves : Bool)
      (reason : String) (now : Nat)
  | closeOp (chan now : Nat)
  | claimOp (chan who : Nat)
  | unclaimOp (chan : Nat)
  | message (chan now : Nat)
  | markWarning (chan : Nat)
  | requestOp (chan : Nat)

/-- Effect of one engine operation on the tickets table; `maxTickets` is the
community's configured maximum, read by the creation path. -/
def engineStep (maxTickets : Nat) (db : List Ticket) : EngineOp → List Ticket
  | EngineOp.create gid uid chan cat res reason now =>
    (createTicketChannel gid uid maxTickets cat res chan reason now db).2
  | EngineOp.closeOp chan now => close_ticket now chan db
  | EngineOp.claimOp chan who => claim_ticket chan who db
  | EngineOp.unclaimOp chan => unclaim_ticket chan db
  | EngineOp.message chan now => update_last_response now chan db
  | EngineOp.markWarning chan => mark_inactivity_warning_sent chan db
  | EngineOp.requestOp chan => request_close chan db

/-- Run a trace of engine operations. -/
def runOps (maxTickets : Nat) (db : List Ticket) (ops : List EngineOp) : List Ticket :=
  ops.foldl (engineStep maxTickets) db

/-- The invariant of claim C2: closed_at is set exactly on closed rows. -/
def ClosedAtInv (db : List Ticket) : Prop :=
  ∀ t ∈ db, (t.closed_at ≠ none ↔ t.status = "closed")

/-- Net per-row effect of one inactivity sweep: rows that are open and whose
channel received a warning get the flag set; all other rows are unchanged. -/
def warnSweepRow (chans : List Nat) (r : Ticket) : Ticket :=
  if r.status = "open" ∧ r.channel_id ∈ chans then
    { r with inactivity_warning_sent := true } else r

/-- Net per-row effect of one staleness sweep: rows whose channel was closed
by the sweep get status 'closed' and a fresh closed_at; others are unchanged. -/
def closeSweepRow (now : Nat) (chans : List Nat) (r : Ticket) : Ticket :=
  if r.channel_id ∈ chans then
    { r with status := "closed", closed_at := some now } else r

/-- Fixture: a closed ticket on channel 100 (creator 7, closed at time 5). -/
def tClosed : Ticket :=
  { ticket_id := 1, guild_id := 1, channel_id := 100, creator_id := 7
    claimed_by := none, created_at := 3, closed_at := some 5, status := "closed"
    reason := "q", transcript := none, last_user_response := 2
    close_requested := false, inactivity_warning_sent := false }

/-- Fixture: an open unclaimed ticket on channel 200 (creator 7). -/
def tOpen : Ticket :=
  { ticket_id := 2, guild_id := 1, channel_id := 200, creator_id := 7
    claimed_by := none, created_at := 3, closed_at := none, status := "open"
    reason := "q", transcript := none, last_user_response := 2
    close_requested := false, inactivity_warning_sent := false }

/-- Fixture: an open ticket on channel 300 claimed by user 9. -/
def tOpenClaimed : Ticket :=
  { ticket_id := 3, guild_id := 1, channel_id := 300, creator_id := 7
    claimed_by := some 9, created_at := 3, closed_at := none, status := "open"
    reason := "q", transcript := none, last_user_response := 2
    close_requested := false, inactivity_warning_sent := false }

/-- Fixture: an open ticket on channel 400 that is past any positive cutoff
(last_user_response = 0) with the warning flag unset. -/
def tStale : Ticket :=
  { ticket_id := 4, guild_id := 1, channel_id := 400, creator_id := 7
    claimed_by := none, created_at := 0, closed_at := none, status := "open"
    reason := "q", transcript := none, last_user_response := 0
    close_requested := false, inactivity_warning_sent := false }

/-- Fixture: an administrator holding no staff role. -/
def actorAdmin : Actor := { id := 9, roles := [], admin := true }

/-- Fixture: a staff member (role 2), not an administrator. -/
def actorStaff : Actor := { id := 5, roles := [2], admin := false }

/-- Fixture: user 7 (the fixtures' ticket creator) holding staff role 2. -/
def actorCreatorStaff : Actor := { id := 7, roles := [2], admin := false }

/-! ## General lemmas about the row functions -/

theorem claimRow_closed (chan who : Nat) (t : Ticket) (h : t.status = "closed") :
    claimRow chan who t = t := by
  unfold claimRow
  rw [if_neg]
  rintro ⟨-, h2⟩
  rw [h] at h2
  exact absurd h2 (by decide)

theorem unclaimRow_closed (chan : Nat) (t : Ticket) (h : t.status = "closed") :
    unclaimRow chan t = t := by
  unfold unclaimRow
  rw [if_neg]
  rintro ⟨-, h2⟩
  rw [h] at h2
  exact absurd h2 (by decide)

theorem lastResponseRow_closed (now chan : Nat) (t : Ticket) (h : t.status = "closed") :
    lastResponseRow now chan t = t := by
  unfold lastResponseRow
  rw [if_neg]
  rintro ⟨-, h2⟩
  rw [h] at h2
  exact absurd h2 (by decide)

theorem warnSentRow_closed (chan : Nat) (t : Ticket) (h : t.status = "closed") :
    warnSentRow chan t = t := by
  unfold warnSentRow
  rw [if_neg]
  rintro ⟨-, h2⟩
  rw [h] at h2
  exact absurd h2 (by decide)

theorem requestCloseRow_closed (chan : Nat) (t : Ticket) (h : t.status = "closed") :
    requestCloseRow chan t = t := by
  unfold requestCloseRow
  rw [if_neg]
  rintro ⟨-, h2⟩
  rw [h] at h2
  exact absurd h2 (by decide)

theorem unclaimRow_claimRow (chan who : Nat) (t : Ticket)
    (h : t.channel_id = chan → t.status = "open" → t.claimed_by = none) :
    unclaimRow chan (claimRow chan who t) = t := by
  unfold claimRow unclaimRow
  by_cases hc : t.channel_id = chan ∧ t.status = "open"
  · rw [if_pos hc, if_pos hc]
    have hnone := h hc.1 hc.2
    cases t
    simp only at hnone
    simp [hnone]
  · rw [if_neg hc, if_neg hc]

/-! ## Claim C1 -/

/-- C1: the close-ticket store mutation, invoked again on a channel whose
ticket is already closed, is claimed to affect 0 rows and leave closed_at
unchanged.  The source UPDATE has no `AND status = 'open'` condition, so the
already-closed row is updated again: closed_at is re-stamped with the new
time.  This evaluates the embedded mutation at such an input. -/
theorem close_ticket_restamps_closed_at :
    close_ticket 9 100 [tClosed] = [{ tClosed with closed_at := some 9 }] ∧
    close_ticket 9 100 [tClosed] ≠ [tClosed] := by
  constructor
  · decide
  · decide

/-! ## Claim C9 -/

/-- C9: claiming an open, unclaimed ticket through the store and then
unclaiming it restores the table exactly: claimed_by is unset again and
every other field of every row is unchanged — indistinguishable from a
never-claimed ticket. -/
theorem claim_unclaim_roundtrip (chan who : Nat) (db : List Ticket)
    (h : ∀ t ∈ db, t.channel_id = chan → t.status = "open" → t.claimed_by = none) :
    unclaim_ticket chan (claim_ticket chan who db) = db := by
  unfold claim_ticket unclaim_ticket
  rw [List.map_map]
  have step : ∀ t ∈ db, (unclaimRow chan ∘ claimRow chan who) t = t := by
    intro t ht
    exact unclaimRow_claimRow chan who t (h t ht)
  calc db.map (unclaimRow chan ∘ claimRow chan who)
      = db.map id := List.map_congr_left (by simpa using step)
    _ = db := List.map_id db

/-- Witness for C9 at a concrete open, unclaimed ticket. -/
theorem claim_unclaim_roundtrip_witness :
    unclaim_ticket 200 (claim_ticket 200 5 [tOpen]) = [tOpen] :=
  claim_unclaim_roundtrip 200 5 [tOpen] (by decide)

/-! ## Claim C2 -/

theorem closedAtInv_engineStep (maxT : Nat) (db : List Ticket) (op : EngineOp)
    (h : ClosedAtInv db) : ClosedAtInv (engineStep maxT db op) := by
  cases op with
  | create gid uid chan cat res reason now =>
    show ClosedAtInv (createTicketChannel gid uid maxT cat res chan reason now db).2
    unfold createTicketChannel
    split
    · exact h
    split
    · exact h
    split
    · exact h
    intro t ht
    unfold create_ticket at ht
    rcases List.mem_append.mp ht with hl | hr
    · exact h t hl
    · have : t = _ := List.mem_singleton.mp hr
      subst this
      simp
  | closeOp chan now =>
    intro t ht
    simp only [engineStep, close_ticket] at ht
    obtain ⟨u, hu, rfl⟩ := List.mem_map.mp ht
    unfold closeRow
    split
    · simp
    · exact h u hu
  | claimOp chan who =>
    intro t ht
    simp only [engineStep, claim_ticket] at ht
    obtain ⟨u, hu, rfl⟩ := List.mem_map.mp ht
    unfold claimRow
    split
    · simpa using h u hu
    · exact h u hu
  | unclaimOp chan =>
    intro t ht
    simp only [engineStep, unclaim_ticket] at ht
    obtain ⟨u, hu, rfl⟩ := List.mem_map.mp ht
    unfold unclaimRow
    split
    · simpa using h u hu
    · exact h u hu
  | message chan now =>
    intro t ht
    simp only [engineStep, update_last_response] at ht
    obtain ⟨u, hu, rfl⟩ := List.mem_map.mp ht
    unfold lastResponseRow
    split
    · simpa using h u hu
    · exact h u hu
  | markWarning chan =>
    intro t ht
    simp only [engineStep, mark_inactivity_warning_sent] at ht
    obtain ⟨u, hu, rfl⟩ := List.mem_map.mp ht
    unfold warnSentRow
    split
    · simpa using h u hu
    · exact h u hu
  | requestOp chan =>
    intro t ht
    simp only [engineStep, request_close] at ht
    obtain ⟨u, hu, rfl⟩ := List.mem_map.mp ht
    unfold requestCloseRow
    split
    · simpa using h u hu
    · exact h u hu

theorem closedAtInv_runOps (maxT : Nat) (ops : List EngineOp) (db : List Ticket)
    (h : ClosedAtInv db) : ClosedAtInv (runOps maxT db ops) := by
  induction ops generalizing db with
  | nil => exact h
  | cons op rest ih =>
    unfold runOps at ih ⊢
    rw [List.foldl_cons]
    exact ih _ (closedAtInv_engineStep maxT db op h)

/-- C2 counterexample: the claim as stated includes `close` among the
operations that leave a closed ticket unchanged, and asserts the close path
is status-gated.  The close mutation is not status-gated in the source: it
modifies the closed fixture's closed_at. -/
theorem closed_ticket_mutated_by_reclose : closeRow 9 100 tClosed ≠ tClosed := by
  decide

/-- C2 (amended): over every trace of engine operations from an empty table,
closed_at is set if and only if the status is 'closed'; and once a ticket is
closed, the status-gated mutations (claim, unclaim, last-response update,
warning mark, close request) leave every one of its fields unchanged.  The
close mutation is excluded: it is not status-gated and re-stamps closed_at
on an already-closed row. -/
theorem closed_ticket_invariants :
    (∀ maxT : Nat, ∀ ops : List EngineOp, ClosedAtInv (runOps maxT [] ops)) ∧
    (∀ chan who now : Nat, ∀ t : Ticket, t.status = "closed" →
      claimRow chan who t = t ∧ unclaimRow chan t = t ∧
      lastResponseRow now chan t = t ∧ warnSentRow chan t = t ∧
      requestCloseRow chan t = t) := by
  constructor
  · intro maxT ops
    refine closedAtInv_runOps maxT ops [] ?_
    intro t ht
    exact absurd ht (List.not_mem_nil t)
  · intro chan who now t h
    exact ⟨claimRow_closed chan who t h, unclaimRow_closed chan t h,
           lastResponseRow_closed now chan t h, warnSentRow_closed chan t h,
           requestCloseRow_closed chan t h⟩

/-- Witness for C2 at the closed fixture. -/
theorem closed_ticket_invariants_witness :
    claimRow 100 5 tClosed = tClosed ∧ unclaimRow 100 tClosed = tClosed := by
  have h := closed_ticket_invariants.2 100 5 9 tClosed (by decide)
  exact ⟨h.1, h.2.1⟩

/-! ## Claim C3 -/

/-- C3: the claim states that after set(community, key, value) every
subsequent get by the same process returns the new value.  In the source,
`update_config` writes through to the store but never refreshes
`TicketBot.guild_configs`, so a community already in the cache keeps serving
the stale value.  At the concrete input: guild 1 is cached (all defaults),
max_tickets is set to 5 through the setup modal; the store then holds 5 but
the process-level read still returns the default 3.  A never-configured
community reads the hard-coded default rather than an error. -/
theorem config_cache_stale_after_write :
    ((botGetConfigKey 1 "max_tickets"
        ((numberModalSubmit 1 "max_tickets" 1 10 (some 5)
          (botGetConfigKey 1 "max_tickets" { store := [], cache := [] }).1).2)).2
      = some (ConfigVal.num 3)) ∧
    (getKey ((dbGetConfig 1 ((numberModalSubmit 1 "max_tickets" 1 10 (some 5)
          (botGetConfigKey 1 "max_tickets" { store := [], cache := [] }).1).2).store).getD [])
        "max_tickets" = some (ConfigVal.num 5)) ∧
    ((botGetConfigKey 2 "max_tickets" { store := [], cache := [] }).2
      = some (ConfigVal.num 3)) := by
  refine ⟨?_, ?_, ?_⟩ <;> decide

/-! ## Claim C7 -/

/-- C7 counterexample: the claim states an administrator who holds no staff
role can unclaim.  At the concrete input the actor is an administrator (and
even the original claimant) but holds no staff role, and the handler rejects
with PermissionDenied before any claimant-or-admin check. -/
theorem admin_without_staff_cannot_unclaim :
    (unclaimCommand 2 0 (fun _ => true) (fun _ => true) actorAdmin 300 [tOpenClaimed]).1
        = CommandResult.permissionDenied ∧
    (unclaimCommand 2 0 (fun _ => true) (fun _ => true) actorAdmin 300 [tOpenClaimed]).1
        ≠ CommandResult.success := by
  decide

/-- C7 (amended): the unclaim handler first requires a staff role (support
or trainee): an actor without one — administrator or not — is rejected with
PermissionDenied.  For staff actors: NotFound when the channel has no ticket
row, NotClaimed when claimed_by is unset, success (clearing claimed_by via
the status-gated store update) when the actor is the claimant or an
administrator, NotOwner when the actor is neither and the recorded claimant
still resolves as a member, and success as well when the recorded claimant
no longer resolves (the handler's claimant check falls through in that
case). -/
theorem unclaim_characterization (sr tr : Nat) (roleExists memberFound : Nat → Bool)
    (a : Actor) (chan : Nat) (db : List Ticket) :
    (hasStaffPermission sr tr roleExists a = false →
       unclaimCommand sr tr roleExists memberFound a chan db
         = (CommandResult.permissionDenied, db)) ∧
    (hasStaffPermission sr tr roleExists a = true →
      (get_ticket_by_channel chan db = none →
         unclaimCommand sr tr roleExists memberFound a chan db
           = (CommandResult.notFound, db)) ∧
      (∀ t, get_ticket_by_channel chan db = some t →
        (t.claimed_by = none →
           unclaimCommand sr tr roleExists memberFound a chan db
             = (CommandResult.notClaimed, db)) ∧
        (∀ c, t.claimed_by = some c → (c = a.id ∨ a.admin = true) →
           unclaimCommand sr tr roleExists memberFound a chan db
             = (CommandResult.success, unclaim_ticket chan db)) ∧
        (∀ c, t.claimed_by = some c → c ≠ a.id → a.admin = false → memberFound c = true →
           unclaimCommand sr tr roleExists memberFound a chan db
             = (CommandResult.notOwner, db)) ∧
        (∀ c, t.claimed_by = some c → c ≠ a.id → a.admin = false → memberFound c = false →
           unclaimCommand sr tr roleExists memberFound a chan db
             = (CommandResult.success, unclaim_ticket chan db)))) := by
  constructor
  · intro h
    simp [unclaimCommand, h]
  · intro h
    refine ⟨?_, ?_⟩
    · intro hn
      simp [unclaimCommand, h, hn]
    · intro t ht
      refine ⟨?_, ?_, ?_, ?_⟩
      · intro hcb
        simp [unclaimCommand, h, ht, hcb]
      · intro c hcb hor
        have hneg : ¬(c ≠ a.id ∧ a.admin = false ∧ memberFound c = true) := by
          rcases hor with h1 | h2
          · rintro ⟨hne, -, -⟩
            exact hne h1
          · rintro ⟨-, hadm, -⟩
            rw [h2] at hadm
            exact Bool.noConfusion hadm
        simp [unclaimCommand, h, ht, hcb, hneg]
      · intro c hcb hne hadm hm
        have hpos : c ≠ a.id ∧ a.admin = false ∧ memberFound c = true := ⟨hne, hadm, hm⟩
        simp [unclaimCommand, h, ht, hcb, hpos]
      · intro c hcb hne hadm hm
        have hneg : ¬(c ≠ a.id ∧ a.admin = false ∧ memberFound c = true) := by
          rintro ⟨-, -, hmt⟩
          rw [hm] at hmt
          exact Bool.noConfusion hmt
        simp [unclaimCommand, h, ht, hcb, hneg]

/-- Witness for C7: a staff claimant unclaims their own claim, and a staff
non-claimant non-admin succeeds when the recorded claimant no longer
resolves as a member. -/
theorem unclaim_characterization_witness :
    (unclaimCommand 2 0 (fun _ => true) (fun _ => true)
        { id := 9, roles := [2], admin := false } 300 [tOpenClaimed]
      = (CommandResult.success, unclaim_ticket 300 [tOpenClaimed])) ∧
    (unclaimCommand 2 0 (fun _ => true) (fun _ => false) actorStaff 300 [tOpenClaimed]
      = (CommandResult.success, unclaim_ticket 300 [tOpenClaimed])) := by
  constructor
  · have h := (unclaim_characterization 2 0 (fun _ => true) (fun _ => true)
        { id := 9, roles := [2], admin := false } 300 [tOpenClaimed]).2 (by decide)
    exact (h.2 tOpenClaimed (by decide)).2.1 9 (by decide) (Or.inl rfl)
  · have h := (unclaim_characterization 2 0 (fun _ => true) (fun _ => false)
        actorStaff 300 [tOpenClaimed]).2 (by decide)
    exact (h.2 tOpenClaimed (by decide)).2.2.2 9 (by decide) (by decide) (by decide) rfl

/-! ## Claim C8 -/

theorem claim_ticket_noop_of_no_open (chan who : Nat) (db : List Ticket)
    (h : ∀ u ∈ db, u.channel_id = chan → u.status ≠ "open") :
    claim_ticket chan who db = db := by
  unfold claim_ticket
  have step : ∀ u ∈ db, claimRow chan who u = u := by
    intro u hu
    unfold claimRow
    rw [if_neg]
    rintro ⟨h1, h2⟩
    exact h u hu h1 h2
  calc db.map (claimRow chan who)
      = db.map id := List.map_congr_left (by simpa using step)
    _ = db := List.map_id db

theorem request_close_noop_of_no_open (chan : Nat) (db : List Ticket)
    (h : ∀ u ∈ db, u.channel_id = chan → u.status ≠ "open") :
    request_close chan db = db := by
  unfold request_close
  have step : ∀ u ∈ db, requestCloseRow chan u = u := by
    intro u hu
    unfold requestCloseRow
    rw [if_neg]
    rintro ⟨h1, h2⟩
    exact h u hu h1 h2
  calc db.map (requestCloseRow chan)
      = db.map id := List.map_congr_left (by simpa using step)
    _ = db := List.map_id db

/-- C8 counterexample: the claim states that a user-facing command on a
closed ticket's channel is explicitly rejected with NotFound rather than
proceeding or reporting success.  At the concrete input (a closed, unclaimed
ticket; a staff actor) the claim handler reports success. -/
theorem claim_closed_not_rejected :
    (claimCommand 2 0 (fun _ => true) (fun _ => true) actorStaff 100 [tClosed]).1
        = CommandResult.success ∧
    (claimCommand 2 0 (fun _ => true) (fun _ => true) actorStaff 100 [tClosed]).1
        ≠ CommandResult.notFound := by
  decide

/-- C8 (amended): the ticket lookup used by the user-facing commands has no
status filter, so a closed ticket's channel is not rejected with NotFound —
NotFound arises only when the channel has no ticket row at all.  On a
channel all of whose rows are closed, a staff actor's claim (when claimed_by
is unset) and the creator's request-close (when not already requested)
report success while the status-gated store mutations leave the table
unchanged. -/
theorem closed_channel_commands (sr tr : Nat) (roleExists memberFound : Nat → Bool)
    (a : Actor) (chan : Nat) (db : List Ticket)
    (hstaff : hasStaffPermission sr tr roleExists a = true) :
    (get_ticket_by_channel chan db = none →
       claimCommand sr tr roleExists memberFound a chan db = (CommandResult.notFound, db) ∧
       requestCloseCommand a chan db = (CommandResult.notFound, db)) ∧
    (∀ t, get_ticket_by_channel chan db = some t → t.status = "closed" →
      (∀ u ∈ db, u.channel_id = chan → u.status = "closed") →
      (t.claimed_by = none →
         claimCommand sr tr roleExists memberFound a chan db
           = (CommandResult.success, db)) ∧
      (t.creator_id = a.id → t.close_requested = false →
         requestCloseCommand a chan db = (CommandResult.success, db))) := by
  constructor
  · intro hn
    constructor
    · simp [claimCommand, hstaff, hn]
    · simp [requestCloseCommand, hn]
  · intro t ht htc hall
    have hnoop : ∀ u ∈ db, u.channel_id = chan → u.status ≠ "open" := by
      intro u hu hc
      rw [hall u hu hc]
      decide
    constructor
    · intro hcb
      have := claim_ticket_noop_of_no_open chan a.id db hnoop
      simp [claimCommand, hstaff, ht, hcb, this]
    · intro hcr hreq
      have := request_close_noop_of_no_open chan db hnoop
      simp [requestCloseCommand, ht, hcr, hreq, this]

/-- Witness for C8: on the closed fixture's channel, the creator (also
staff) gets success from both claim and request-close while the table is
unchanged. -/
theorem closed_channel_commands_witness :
    claimCommand 2 0 (fun _ => true) (fun _ => true) actorCreatorStaff 100 [tClosed]
        = (CommandResult.success, [tClosed]) ∧
    requestCloseCommand actorCreatorStaff 100 [tClosed]
        = (CommandResult.success, [tClosed]) := by
  have h := (closed_channel_commands 2 0 (fun _ => true) (fun _ => true)
      actorCreatorStaff 100 [tClosed] (by decide)).2 tClosed (by decide) (by decide)
      (by decide)
  exact ⟨h.1 (by decide), h.2 (by decide) (by decide)⟩

/-! ## Claim C4 -/

theorem lastResponseRow_channel (now chan : Nat) (t : Ticket) :
    (lastResponseRow now chan t).channel_id = t.channel_id := by
  unfold lastResponseRow
  split <;> rfl

theorem lastResponseRow_status (now chan : Nat) (t : Ticket) :
    (lastResponseRow now chan t).status = t.status := by
  unfold lastResponseRow
  split <;> rfl

theorem get_ticket_update_last (now chan : Nat) (db : List Ticket) :
    get_ticket_by_channel chan (update_last_response now chan db)
      = (get_ticket_by_channel chan db).map (lastResponseRow now chan) := by
  unfold get_ticket_by_channel update_last_response
  rw [List.find?_map]
  have e : ((fun t : Ticket => t.channel_id == chan) ∘ lastResponseRow now chan)
      = (fun t : Ticket => t.channel_id == chan) := by
    funext t
    simp [Function.comp, lastResponseRow_channel]
  rw [e]

theorem lastResponseRow_twice (nowA nowB chan : Nat) (t : Ticket) :
    lastResponseRow nowB chan (lastResponseRow nowA chan t)
      = lastResponseRow nowB chan t := by
  unfold lastResponseRow
  by_cases hc : t.channel_id = chan ∧ t.status = "open"
  · obtain ⟨h1, h2⟩ := hc
    simp [h1, h2]
  · rw [if_neg hc, if_neg hc]

/-- C4: a non-bot message in an open ticket's channel advances
last_user_response to the current time and resets the inactivity-warning
flag (and repeated messages keep it reset: a second message gives the same
table as a single message at the later time); a message in a closed ticket's
channel, in a non-ticket channel, or from a bot changes nothing. -/
theorem on_message_spec (now now2 chan : Nat) (db : List Ticket) :
    (∀ t, get_ticket_by_channel chan db = some t → t.status = "open" →
       onMessage now chan false db = update_last_response now chan db ∧
       (∀ u ∈ db, u.channel_id = chan → u.status = "open" →
          (lastResponseRow now chan u).last_user_response = now ∧
          (lastResponseRow now chan u).inactivity_warning_sent = false) ∧
       onMessage now2 chan false (onMessage now chan false db)
         = onMessage now2 chan false db) ∧
    (∀ t, get_ticket_by_channel chan db = some t → t.status ≠ "open" →
       onMessage now chan false db = db) ∧
    (get_ticket_by_channel chan db = none → onMessage now chan false db = db) ∧
    (onMessage now chan true db = db) := by
  refine ⟨?_, ?_, ?_, ?_⟩
  · intro t ht hopen
    refine ⟨by simp [onMessage, ht, hopen], ?_, ?_⟩
    · intro u _ h1 h2
      unfold lastResponseRow
      simp [h1, h2]
    · have e1 : onMessage now chan false db = update_last_response now chan db := by
        simp [onMessage, ht, hopen]
      have e2 : get_ticket_by_channel chan (update_last_response now chan db)
          = some (lastResponseRow now chan t) := by
        rw [get_ticket_update_last, ht]
        rfl
      have e3 : (lastResponseRow now chan t).status = "open" := by
        rw [lastResponseRow_status]
        exact hopen
      have e4 : onMessage now2 chan false (update_last_response now chan db)
          = update_last_response now2 chan (update_last_response now chan db) := by
        simp [onMessage, e2, e3]
      have e5 : onMessage now2 chan false db = update_last_response now2 chan db := by
        simp [onMessage, ht, hopen]
      rw [e1, e4, e5]
      unfold update_last_response
      rw [List.map_map]
      apply List.map_congr_left
      intro u _
      simpa [Function.comp] using lastResponseRow_twice now now2 chan u
  · intro t ht hne
    simp [onMessage, ht, hne]
  · intro hn
    simp [onMessage, hn]
  · rfl

/-- Witness for C4: a user message at time 9 on the open fixture's channel. -/
theorem on_message_spec_witness :
    onMessage 9 200 false [tOpen]
      = [{ tOpen with last_user_response := 9, inactivity_warning_sent := false }] := by
  have h := (on_message_spec 9 11 200 [tOpen]).1 tOpen (by decide) (by decide)
  exact h.1.trans (by decide)

/-! ## Claim C5 -/

theorem warnedChannels_cons (resolve : Nat → Bool) (t : Ticket) (rest : List Ticket) :
    warnedChannels resolve (t :: rest)
      = if resolve t.channel_id then t.channel_id :: warnedChannels resolve rest
        else warnedChannels resolve rest := by
  unfold warnedChannels
  rw [List.filter_cons]
  by_cases h : resolve t.channel_id
  · simp [h]
  · simp [h]

theorem warnLoop_eq (resolve : Nat → Bool) (sel db : List Ticket) :
    warnLoop resolve sel db
      = db.map (warnSweepRow (warnedChannels resolve sel)) := by
  induction sel generalizing db with
  | nil =>
    unfold warnLoop warnSweepRow warnedChannels
    simp
  | cons t rest ih =>
    unfold warnLoop
    by_cases hres : resolve t.channel_id
    · rw [if_pos hres, ih]
      unfold mark_inactivity_warning_sent
      rw [List.map_map]
      apply List.map_congr_left
      intro r _
      show warnSweepRow (warnedChannels resolve rest) (warnSentRow t.channel_id r)
          = warnSweepRow (warnedChannels resolve (t :: rest)) r
      rw [warnedChannels_cons, if_pos hres]
      unfold warnSentRow warnSweepRow
      by_cases h1 : r.status = "open"
      · by_cases h2 : r.channel_id = t.channel_id
        · simp [h1, h2, List.mem_cons]
        · by_cases h3 : r.channel_id ∈ warnedChannels resolve rest
          · simp [h1, h2, h3, List.mem_cons]
          · simp [h1, h2, h3, List.mem_cons]
      · simp [h1]
    · rw [if_neg hres, ih, warnedChannels_cons, if_neg hres]

theorem mem_warnedChannels (resolve : Nat → Bool) {t : Ticket} {sel : List Ticket}
    (h : t ∈ sel) (hr : resolve t.channel_id = true) :
    t.channel_id ∈ warnedChannels resolve sel := by
  unfold warnedChannels
  exact List.mem_map_of_mem _ (List.mem_filter.mpr ⟨h, hr⟩)

theorem inactivePred_parts {gid cutoff : Nat} {t : Ticket}
    (h : inactivePred gid cutoff t = true) :
    t.guild_id = gid ∧ t.status = "open" ∧ t.last_user_response < cutoff ∧
      t.inactivity_warning_sent = false := by
  unfold inactivePred at h
  simp only [Bool.and_eq_true, beq_iff_eq, decide_eq_true_eq, Bool.not_eq_true'] at h
  exact ⟨h.1.1.1, h.1.1.2, h.1.2, h.2⟩

/-- C5: running the inactivity sweep twice in immediate succession over an
unchanged ticket set (with the selected channels resolvable) sends at most
one warning per ticket: the first run marks inactivity_warning_sent on
every open row of each warned channel, the gating query then selects no
tickets, and the second run changes nothing and warns nobody. -/
theorem inactivity_sweep_idempotent (gid cutoff : Nat) (resolve : Nat → Bool)
    (db : List Ticket)
    (hres : ∀ t ∈ get_inactive_tickets gid cutoff db, resolve t.channel_id = true) :
    (∀ t ∈ get_inactive_tickets gid cutoff db,
       ∀ u ∈ (checkInactiveTickets gid cutoff resolve db).1,
         u.channel_id = t.channel_id → u.status = "open" →
         u.inactivity_warning_sent = true) ∧
    get_inactive_tickets gid cutoff (checkInactiveTickets gid cutoff resolve db).1 = [] ∧
    checkInactiveTickets gid cutoff resolve (checkInactiveTickets gid cutoff resolve db).1
      = ((checkInactiveTickets gid cutoff resolve db).1, []) := by
  have hdb1 : (checkInactiveTickets gid cutoff resolve db).1
      = db.map (warnSweepRow (warnedChannels resolve (get_inactive_tickets gid cutoff db))) :=
    warnLoop_eq resolve (get_inactive_tickets gid cutoff db) db
  have hempty :
      get_inactive_tickets gid cutoff (checkInactiveTickets gid cutoff resolve db).1 = [] := by
    rw [hdb1]
    show List.filter (inactivePred gid cutoff)
        (db.map (warnSweepRow (warnedChannels resolve (get_inactive_tickets gid cutoff db))))
      = []
    rw [List.filter_eq_nil_iff]
    intro a ha hpred
    obtain ⟨r, hr, rfl⟩ := List.mem_map.mp ha
    by_cases hcond : r.status = "open" ∧
        r.channel_id ∈ warnedChannels resolve (get_inactive_tickets gid cutoff db)
    · rw [warnSweepRow, if_pos hcond] at hpred
      have := (inactivePred_parts hpred).2.2.2
      simp at this
    · rw [warnSweepRow, if_neg hcond] at hpred
      have hsel : r ∈ get_inactive_tickets gid cutoff db :=
        List.mem_filter.mpr ⟨hr, hpred⟩
      have hmem := mem_warnedChannels resolve hsel (hres r hsel)
      exact hcond ⟨(inactivePred_parts hpred).2.1, hmem⟩
  refine ⟨?_, hempty, ?_⟩
  · intro t htsel u hu huc hus
    rw [hdb1] at hu
    obtain ⟨r, hr, rfl⟩ := List.mem_map.mp hu
    have hchan : t.channel_id ∈ warnedChannels resolve (get_inactive_tickets gid cutoff db) :=
      mem_warnedChannels resolve htsel (hres t htsel)
    by_cases hcond : r.status = "open" ∧
        r.channel_id ∈ warnedChannels resolve (get_inactive_tickets gid cutoff db)
    · rw [warnSweepRow, if_pos hcond]
    · rw [warnSweepRow, if_neg hcond] at huc hus ⊢
      exact absurd ⟨hus, huc ▸ hchan⟩ hcond
  · have e : checkInactiveTickets gid cutoff resolve (checkInactiveTickets gid cutoff resolve db).1
        = (warnLoop resolve
             (get_inactive_tickets gid cutoff (checkInactiveTickets gid cutoff resolve db).1)
             (checkInactiveTickets gid cutoff resolve db).1,
           warnedChannels resolve
             (get_inactive_tickets gid cutoff (checkInactiveTickets gid cutoff resolve db).1)) :=
      rfl
    rw [e, hempty]
    rfl

/-- Witness for C5 at a one-ticket table whose channel resolves. -/
theorem inactivity_sweep_idempotent_witness :
    get_inactive_tickets 1 10
        (checkInactiveTickets 1 10 (fun _ => true) [tStale]).1 = [] :=
  (inactivity_sweep_idempotent 1 10 (fun _ => true) [tStale]
    (by intro t ht; rfl)).2.1

/-! ## Claim C10 -/

theorem closedChannels_cons (resolve : Nat → Bool) (t : Ticket) (rest : List Ticket) :
    closedChannels resolve (t :: rest)
      = if resolve t.channel_id then t.channel_id :: closedChannels resolve rest
        else closedChannels resolve rest := by
  unfold closedChannels
  rw [List.filter_cons]
  by_cases h : resolve t.channel_id
  · simp [h]
  · simp [h]

theorem closeLoop_eq (now : Nat) (resolve : Nat → Bool) (sel db : List Ticket) :
    closeLoop now resolve sel db
      = db.map (closeSweepRow now (closedChannels resolve sel)) := by
  induction sel generalizing db with
  | nil =>
    unfold closeLoop closeSweepRow closedChannels
    simp
  | cons t rest ih =>
    unfold closeLoop
    by_cases hres : resolve t.channel_id
    · rw [if_pos hres, ih]
      unfold close_ticket
      rw [List.map_map]
      apply List.map_congr_left
      intro r _
      show closeSweepRow now (closedChannels resolve rest) (closeRow now t.channel_id r)
          = closeSweepRow now (closedChannels resolve (t :: rest)) r
      rw [closedChannels_cons, if_pos hres]
      unfold closeRow closeSweepRow
      by_cases h2 : r.channel_id = t.channel_id
      · simp [h2, List.mem_cons]
      · by_cases h3 : r.channel_id ∈ closedChannels resolve rest
        · simp [h2, h3, List.mem_cons]
        · simp [h2, h3, List.mem_cons]
    · rw [if_neg hres, ih, closedChannels_cons, if_neg hres]

theorem mem_closedChannels_resolve {resolve : Nat → Bool} {sel : List Ticket} {c : Nat}
    (h : c ∈ closedChannels resolve sel) : resolve c = true := by
  unfold closedChannels at h
  obtain ⟨t, ht, rfl⟩ := List.mem_map.mp h
  exact (List.mem_filter.mp ht).2

theorem mem_warnedChannels_resolve {resolve : Nat → Bool} {sel : List Ticket} {c : Nat}
    (h : c ∈ warnedChannels resolve sel) : resolve c = true := by
  unfold warnedChannels at h
  obtain ⟨t, ht, rfl⟩ := List.mem_map.mp h
  exact (List.mem_filter.mp ht).2

/-- C10: each sweep factors into a per-row function driven by the list of
channels it acted on, and a row whose channel does not resolve on the
platform is left exactly as it was: the staleness sweep performs no close on
it (its channel is never in the closed list) and the inactivity sweep sends
it no warning and leaves its flag untouched. -/
theorem sweeps_skip_unresolvable (gid cutoff now : Nat) (resolve : Nat → Bool)
    (db : List Ticket) :
    ((checkStaleTickets gid cutoff now resolve db).1
       = db.map (closeSweepRow now
           (closedChannels resolve (get_stale_tickets gid cutoff db)))) ∧
    (∀ r : Ticket, resolve r.channel_id = false →
       closeSweepRow now (closedChannels resolve (get_stale_tickets gid cutoff db)) r = r ∧
       r.channel_id ∉ (checkStaleTickets gid cutoff now resolve db).2) ∧
    ((checkInactiveTickets gid cutoff resolve db).1
       = db.map (warnSweepRow
           (warnedChannels resolve (get_inactive_tickets gid cutoff db)))) ∧
    (∀ r : Ticket, resolve r.channel_id = false →
       warnSweepRow (warnedChannels resolve (get_inactive_tickets gid cutoff db)) r = r ∧
       r.channel_id ∉ (checkInactiveTickets gid cutoff resolve db).2) := by
  refine ⟨closeLoop_eq now resolve (get_stale_tickets gid cutoff db) db, ?_,
          warnLoop_eq resolve (get_inactive_tickets gid cutoff db) db, ?_⟩
  · intro r hrf
    have hnot : r.channel_id ∉ closedChannels resolve (get_stale_tickets gid cutoff db) := by
      intro hmem
      rw [mem_closedChannels_resolve hmem] at hrf
      exact Bool.noConfusion hrf
    constructor
    · unfold closeSweepRow
      rw [if_neg hnot]
    · exact hnot
  · intro r hrf
    have hnot : r.channel_id ∉ warnedChannels resolve (get_inactive_tickets gid cutoff db) := by
      intro hmem
      rw [mem_warnedChannels_resolve hmem] at hrf
      exact Bool.noConfusion hrf
    constructor
    · unfold warnSweepRow
      rw [if_neg]
      rintro ⟨-, hmem⟩
      exact hnot hmem
    · exact hnot

/-- Witness for C10: a stale open ticket whose channel does not resolve is
untouched by both sweeps. -/
theorem sweeps_skip_unresolvable_witness :
    closeSweepRow 99 (closedChannels (fun _ => false) (get_stale_tickets 1 10 [tStale]))
        tStale = tStale ∧
    warnSweepRow (warnedChannels (fun _ => false) (get_inactive_tickets 1 10 [tStale]))
        tStale = tStale := by
  have h := sweeps_skip_unresolvable 1 10 99 (fun _ => false) [tStale]
  exact ⟨(h.2.1 tStale rfl).1, (h.2.2.2 tStale rfl).1⟩

/-! ## Claim C6 -/

theorem openCount_map_le (gid uid : Nat) (f : Ticket → Ticket)
    (hf : ∀ t, userPred gid uid (f t) = true → userPred gid uid t = true)
    (db : List Ticket) : openCount gid uid (db.map f) ≤ openCount gid uid db := by
  unfold openCount get_user_tickets
  induction db with
  | nil => simp
  | cons t rest ih =>
    rw [List.map_cons, List.filter_cons, List.filter_cons]
    by_cases h1 : userPred gid uid (f t) = true
    · rw [if_pos h1, if_pos (hf t h1)]
      simpa using ih
    · rw [if_neg h1]
      by_cases h2 : userPred gid uid t = true
      · rw [if_pos h2]
        exact Nat.le_succ_of_le ih
      · rw [if_neg h2]
        exact ih

theorem userPred_claimRow (gid uid chan who : Nat) (t : Ticket) :
    userPred gid uid (claimRow chan who t) = userPred gid uid t := by
  unfold claimRow
  split <;> rfl

theorem userPred_unclaimRow (gid uid chan : Nat) (t : Ticket) :
    userPred gid uid (unclaimRow chan t) = userPred gid uid t := by
  unfold unclaimRow
  split <;> rfl

theorem userPred_lastResponseRow (gid uid now chan : Nat) (t : Ticket) :
    userPred gid uid (lastResponseRow now chan t) = userPred gid uid t := by
  unfold lastResponseRow
  split <;> rfl

theorem userPred_warnSentRow (gid uid chan : Nat) (t : Ticket) :
    userPred gid uid (warnSentRow chan t) = userPred gid uid t := by
  unfold warnSentRow
  split <;> rfl

theorem userPred_requestCloseRow (gid uid chan : Nat) (t : Ticket) :
    userPred gid uid (requestCloseRow chan t) = userPred gid uid t := by
  unfold requestCloseRow
  split <;> rfl

theorem userPred_closeRow (gid uid now chan : Nat) (t : Ticket)
    (h : userPred gid uid (closeRow now chan t) = true) :
    userPred gid uid t = true := by
  unfold closeRow at h
  split at h
  · exfalso
    unfold userPred at h
    simp at h
  · exact h

theorem openCount_append (gid uid : Nat) (db : List Ticket) (r : Ticket) :
    openCount gid uid (db ++ [r])
      = openCount gid uid db + (if userPred gid uid r = true then 1 else 0) := by
  unfold openCount get_user_tickets
  rw [List.filter_append, List.length_append]
  congr 1
  rw [List.filter_cons]
  by_cases h : userPred gid uid r = true
  · rw [if_pos h, if_pos h]
    rfl
  · rw [if_neg h, if_neg h]
    rfl

theorem engineStep_preserves_max (maxT : Nat) (db : List Ticket) (op : EngineOp)
    (h : ∀ gid uid, openCount gid uid db ≤ maxT) :
    ∀ gid uid, openCount gid uid (engineStep maxT db op) ≤ maxT := by
  intro gid uid
  cases op with
  | create gid2 uid2 chan cat res reason now =>
    show openCount gid uid (createTicketChannel gid2 uid2 maxT cat res chan reason now db).2
        ≤ maxT
    unfold createTicketChannel
    by_cases hg : maxT ≤ (get_user_tickets gid2 uid2 db).length
    · rw [if_pos hg]
      exact h gid uid
    · rw [if_neg hg]
      by_cases hc : cat = 0
      · rw [if_pos hc]
        exact h gid uid
      · rw [if_neg hc]
        by_cases hb : (!res) = true
        · rw [if_pos hb]
          exact h gid uid
        · rw [if_neg hb]
          show openCount gid uid (create_ticket gid2 chan uid2 reason now db) ≤ maxT
          unfold create_ticket
          rw [openCount_append]
          by_cases hp : userPred gid uid
              { ticket_id := get_last_ticket_id db + 1, guild_id := gid2, channel_id := chan
                creator_id := uid2, claimed_by := none, created_at := now, closed_at := none
                status := "open", reason := reason, transcript := none
                last_user_response := now, close_requested := false
                inactivity_warning_sent := false } = true
          · rw [if_pos hp]
            have hids : gid2 = gid ∧ uid2 = uid := by
              unfold userPred at hp
              simp at hp
              exact hp
            obtain ⟨rfl, rfl⟩ := hids
            have hlt : openCount gid2 uid2 db < maxT := Nat.lt_of_not_le hg
            omega
          · rw [if_neg hp]
            have := h gid uid
            omega
  | closeOp chan now =>
    show openCount gid uid (close_ticket now chan db) ≤ maxT
    unfold close_ticket
    exact le_trans (openCount_map_le gid uid _ (userPred_closeRow gid uid now chan) db)
      (h gid uid)
  | claimOp chan who =>
    show openCount gid uid (claim_ticket chan who db) ≤ maxT
    unfold claim_ticket
    refine le_trans (openCount_map_le gid uid _ ?_ db) (h gid uid)
    intro t ht
    rwa [userPred_claimRow] at ht
  | unclaimOp chan =>
    show openCount gid uid (unclaim_ticket chan db) ≤ maxT
    unfold unclaim_ticket
    refine le_trans (openCount_map_le gid uid _ ?_ db) (h gid uid)
    intro t ht
    rwa [userPred_unclaimRow] at ht
  | message chan now =>
    show openCount gid uid (update_last_response now chan db) ≤ maxT
    unfold update_last_response
    refine le_trans (openCount_map_le gid uid _ ?_ db) (h gid uid)
    intro t ht
    rwa [userPred_lastResponseRow] at ht
  | markWarning chan =>
    show openCount gid uid (mark_inactivity_warning_sent chan db) ≤ maxT
    unfold mark_inactivity_warning_sent
    refine le_trans (openCount_map_le gid uid _ ?_ db) (h gid uid)
    intro t ht
    rwa [userPred_warnSentRow] at ht
  | requestOp chan =>
    show openCount gid uid (request_close chan db) ≤ maxT
    unfold request_close
    refine le_trans (openCount_map_le gid uid _ ?_ db) (h gid uid)
    intro t ht
    rwa [userPred_requestCloseRow] at ht

theorem runOps_max (maxT : Nat) (ops : List EngineOp) (db : List Ticket)
    (h : ∀ gid uid, openCount gid uid db ≤ maxT) :
    ∀ gid uid, openCount gid uid (runOps maxT db ops) ≤ maxT := by
  induction ops generalizing db with
  | nil => exact h
  | cons op rest ih =>
    unfold runOps at ih ⊢
    rw [List.foldl_cons]
    exact ih _ (engineStep_preserves_max maxT db op h)

/-- C6: along every trace of engine operations from an empty table, no user
ever holds more than the configured maximum of open tickets in any guild;
and whenever the creator's open-ticket count has already reached the
configured maximum, creation fails with the limit error and inserts
nothing. -/
theorem create_enforces_max :
    (∀ maxT : Nat, ∀ ops : List EngineOp, ∀ gid uid : Nat,
       openCount gid uid (runOps maxT [] ops) ≤ maxT) ∧
    (∀ gid uid maxT cat : Nat, ∀ res : Bool, ∀ chan : Nat, ∀ reason : String,
       ∀ now : Nat, ∀ db : List Ticket, maxT ≤ openCount gid uid db →
       createTicketChannel gid uid maxT cat res chan reason now db
         = (CreateResult.limitExceeded, db)) := by
  constructor
  · intro maxT ops gid uid
    refine runOps_max maxT ops [] ?_ gid uid
    intro g u
    simp [openCount, get_user_tickets]
  · intro gid uid maxT cat res chan reason now db hge
    unfold createTicketChannel
    have hge2 : maxT ≤ (get_user_tickets gid uid db).length := hge
    rw [if_pos hge2]

/-- Witness for C6: with max 1 and one open ticket already held, creation
fails with the limit error and leaves the table unchanged. -/
theorem create_enforces_max_witness :
    createTicketChannel 1 7 1 5 true 300 "help" 9 [tOpen]
      = (CreateResult.limitExceeded, [tOpen]) :=
  create_enforces_max.2 1 7 1 5 true 300 "help" 9 [tOpen] (by decide)

end TicketTool

